import Mathlib

/-!
Verification development for the Satellite-Tracker firmware.

Floating-point (`float`/`double`) quantities of the firmware are modelled as
rationals (`ℚ`), C `int`/`int32_t` as `ℤ`, unsigned milliseconds as `ℕ`.
The definitions below are shallow embeddings of the corresponding C functions:
`setMotorSpeed`, `pidControl`, `updateMotorControl` from `motor_control.cpp`
(the improved version carrying the emergency-stop latch), and the tracking
loop `updateTracking` / `setTLE` / `setManualPosition` plus the touch-screen
target adjustments from the display module.
-/

namespace SatTracker

/-! ## Configuration constants (config.h) -/

/-- config.h: ` GEAR_RATIO 75.0` (named `gearRatio` here). -/
def gearRatio : ℚ := 75

/-- config.h: `ENCODER_PPR 1`. -/
def ENCODER_PPR : ℚ := 1

/-- config.h: `DEGREES_PER_PULSE (360.0 / ( GEAR_RATIO * ENCODER_PPR * 4))`. -/
def DEGREES_PER_PULSE : ℚ := 360 / (gearRatio * ENCODER_PPR * 4)

/-- config.h: `KP 3.0`. -/
def KP : ℚ := 3

/-- config.h: `KI 0.15`. -/
def KI : ℚ := 15 / 100

/-- config.h: `KD 0.8`. -/
def KD : ℚ := 8 / 10

/-- config.h: `MAX_ERROR_INTEGRAL 50.0`. -/
def MAX_ERROR_INTEGRAL : ℚ := 50

/-- config.h: `POSITION_TOLERANCE 0.3`. -/
def POSITION_TOLERANCE : ℚ := 3 / 10

/-- config.h: `CONTROL_LOOP_DT (1.0 / CONTROL_LOOP_HZ)` with `CONTROL_LOOP_HZ 100.0`. -/
def CONTROL_LOOP_DT : ℚ := 1 / 100

/-- config.h: `MAX_ELEVATION 90.0`. -/
def MAX_ELEVATION : ℚ := 90

/-- config.h: `MIN_ELEVATION 0.0`. -/
def MIN_ELEVATION : ℚ := 0

/-- config.h: `MOTOR_MIN_PWM 50` (the `MOTOR_DRIVER_L298N` block is the one enabled). -/
def MOTOR_MIN_PWM : ℤ := 50

/-- config.h: `MOTOR_BRAKE_MODE false` (the `MOTOR_DRIVER_L298N` block is the one enabled). -/
def MOTOR_BRAKE_MODE : Bool := false

/-- tracking_logic: `PREDICTION_TIME_SEC 2.0`, the lookahead horizon in seconds. -/
def PREDICTION_TIME_SEC : ℚ := 2

/-! ## Arduino helpers -/

/-- Arduino `constrain(amt, low, high)` on floats:
`((amt)<(low)?(low):((amt)>(high)?(high):(amt)))`. -/
def qconstrain (x lo hi : ℚ) : ℚ :=
  if x < lo then lo else if x > hi then hi else x

/-- Arduino `constrain` on C `int`s. -/
def iconstrain (x lo hi : ℤ) : ℤ :=
  if x < lo then lo else if x > hi then hi else x

/-- Models `while (x < 0) x += 360.0;` (azimuth normalization, first loop). -/
def normUp (x : ℚ) : ℚ :=
  if h : x < 0 then normUp (x + 360) else x
termination_by (⌈-x / 360⌉).toNat
decreasing_by
  have h1 : -(x + 360) / 360 = -x / 360 - 1 := by ring
  rw [h1, Int.ceil_sub_one]
  have h2 : (0 : ℚ) < -x / 360 := by
    apply div_pos _ (by norm_num)
    linarith
  have h3 : 0 < ⌈-x / 360⌉ := Int.ceil_pos.mpr h2
  omega

/-- Models `while (x >= 360) x -= 360.0;` (azimuth normalization, second loop). -/
def normDown (x : ℚ) : ℚ :=
  if h : x ≥ 360 then normDown (x - 360) else x
termination_by (⌊x / 360⌋).toNat
decreasing_by
  have h1 : (x - 360) / 360 = x / 360 - (1 : ℤ) := by push_cast; ring
  rw [h1, Int.floor_sub_int]
  have h2 : (1 : ℚ) ≤ x / 360 := by
    rw [le_div_iff₀ (by norm_num : (0:ℚ) < 360)]
    linarith
  have h3 : 1 ≤ ⌊x / 360⌋ := by exact_mod_cast Int.le_floor.mpr (by exact_mod_cast h2)
  omega

/-- The two normalization loops applied in source order. -/
def normalizeAz (x : ℚ) : ℚ := normDown (normUp x)

/-- C cast `(int)f` from float truncates toward zero. -/
def truncToInt (q : ℚ) : ℤ :=
  if 0 ≤ q then ⌊q⌋ else ⌈q⌉

/-! ## Motor control (motor_control.cpp, improved version with the
emergency-stop latch; file `src/unnamed/part_002`) -/

/-- The pair of PWM duty values written to a motor's forward/reverse pins by
one `setMotorSpeed` call (`analogWrite(fwdPin, ...)` / `analogWrite(revPin, ...)`). -/
structure PinDrive where
  fwd : ℤ
  rev : ℤ
deriving DecidableEq

/-- The zero-speed output written in the `speed == 0` branch of `setMotorSpeed`:
brake (255/255) when `MOTOR_BRAKE_MODE`, coast (0/0) otherwise. -/
def stopCommand : PinDrive :=
  if MOTOR_BRAKE_MODE then ⟨255, 255⟩ else ⟨0, 0⟩

/-- `setMotorSpeed(fwdPin, revPin, enablePin, speed)` from the improved
motor_control.cpp, as a function from the emergency-stop latch and the
requested speed to the pin outputs.  Mirrors the source line by line:
the latch forces `speed = 0`; then `constrain(speed, -255, 255)`; then the
minimum-PWM bump `if (abs(speed) > 0 && abs(speed) < MOTOR_MIN_PWM)`; then
the three-way branch on the sign of the speed. -/
def setMotorSpeed (emergencyStop : Bool) (speed : ℤ) : PinDrive :=
  let s1 : ℤ := if emergencyStop then 0 else speed
  let s2 : ℤ := iconstrain s1 (-255) 255
  let s3 : ℤ :=
    if 0 < s2.natAbs ∧ s2.natAbs < MOTOR_MIN_PWM.natAbs then
      (if 0 < s2 then MOTOR_MIN_PWM else -MOTOR_MIN_PWM)
    else s2
  if 0 < s3 then ⟨s3, 0⟩
  else if s3 < 0 then ⟨0, -s3⟩
  else stopCommand

/-- Per-axis PID state: `errorIntegral*` and `lastError*` globals. -/
structure PidState where
  errorIntegral : ℚ
  lastError : ℚ
deriving DecidableEq

/-- `pidControl(error, errorIntegral, lastError, dt)`: returns the constrained
output together with the updated `(errorIntegral, lastError)` pair. -/
def pidControl (error : ℚ) (st : PidState) (dt : ℚ) : ℚ × PidState :=
  let integ := qconstrain (st.errorIntegral + error * dt) (-MAX_ERROR_INTEGRAL) MAX_ERROR_INTEGRAL
  let deriv := (error - st.lastError) / dt
  let out := qconstrain (KP * error + KI * integ + KD * deriv) (-255) 255
  (out, ⟨integ, error⟩)

/-- The state read by one `updateMotorControl` tick: the emergency-stop latch,
the two encoder counts just fetched from the PIO, the shared target position
fields it consumes, the `trackerState.tracking` flag, and the two PID states. -/
structure MotorIn where
  emergencyStop : Bool
  elevCount : ℤ
  azCount : ℤ
  targetElevation : ℚ
  targetAzimuth : ℚ
  tracking : Bool
  pidE : PidState
  pidA : PidState

/-- The observable effect of one `updateMotorControl` tick: the drive written
to each motor, the updated PID states, and the updated tracking flag. -/
structure MotorOut where
  driveE : PinDrive
  driveA : PinDrive
  pidE : PidState
  pidA : PidState
  tracking : Bool

/-- `currentElevation = motorPos.elevation * DEGREES_PER_PULSE`. -/
def measuredElevation (s : MotorIn) : ℚ :=
  (s.elevCount : ℚ) * DEGREES_PER_PULSE

/-- `currentAzimuth`, normalized to `[0, 360)` by the two while loops. -/
def measuredAzimuth (s : MotorIn) : ℚ :=
  normalizeAz ((s.azCount : ℚ) * DEGREES_PER_PULSE)

/-- `constrain(targetPos.elevation, MIN_ELEVATION, MAX_ELEVATION)` — the
target elevation actually used by the control math. -/
def motorTargetEl (s : MotorIn) : ℚ :=
  qconstrain s.targetElevation MIN_ELEVATION MAX_ELEVATION

/-- The azimuth shortest-path wrap applied to the raw error
`targetAz - currentAzimuth`:
`if (errorA > 180) errorA -= 360; if (errorA < -180) errorA += 360;`. -/
def azWrappedError (targetAz currentAz : ℚ) : ℚ :=
  let e0 := targetAz - currentAz
  let e1 := if e0 > 180 then e0 - 360 else e0
  if e1 < -180 then e1 + 360 else e1

/-- `updateMotorControl()` from the improved motor_control.cpp.
Early return when the emergency-stop latch is set (`stopAllMotors()` only);
early return with `trackerState.tracking = false` on the elevation
overtravel check; otherwise the per-axis dead-zone / PID logic feeding
`setMotorSpeed`. -/
def updateMotorControl (s : MotorIn) : MotorOut :=
  if s.emergencyStop then
    { driveE := setMotorSpeed true 0, driveA := setMotorSpeed true 0,
      pidE := s.pidE, pidA := s.pidA, tracking := s.tracking }
  else
    let currentElevation := measuredElevation s
    let currentAzimuth := measuredAzimuth s
    if currentElevation < MIN_ELEVATION - 5 ∨ currentElevation > MAX_ELEVATION + 5 then
      { driveE := setMotorSpeed false 0, driveA := setMotorSpeed false 0,
        pidE := s.pidE, pidA := s.pidA, tracking := false }
    else
      let errorE := motorTargetEl s - currentElevation
      let errorA := azWrappedError s.targetAzimuth currentAzimuth
      let resE := if |errorE| > POSITION_TOLERANCE
        then pidControl errorE s.pidE CONTROL_LOOP_DT
        else (0, ⟨0, 0⟩)
      let resA := if |errorA| > POSITION_TOLERANCE
        then pidControl errorA s.pidA CONTROL_LOOP_DT
        else (0, ⟨0, 0⟩)
      { driveE := setMotorSpeed false (truncToInt resE.1),
        driveA := setMotorSpeed false (truncToInt resA.1),
        pidE := resE.2, pidA := resA.2, tracking := s.tracking }

/-! ## Tracking loop (tracking_logic.cpp, predictive version; the TLE-handoff
block at the top of `updateTracking` is identical in both versions of the
file present in the repository) -/

/-- The `TargetPosition` shared structure (shared_data.h). -/
structure TargetPosition where
  elevation : ℚ
  azimuth : ℚ
  valid : Bool
deriving DecidableEq

/-- The `TrackerState` shared structure (shared_data.h); GPS date/time fields
are unsigned integers. -/
structure TrackerState where
  latitude : ℚ
  longitude : ℚ
  altitude : ℚ
  gpsYear : ℕ
  gpsMonth : ℕ
  gpsDay : ℕ
  gpsHour : ℕ
  gpsMinute : ℕ
  gpsSecond : ℕ
  gpsValid : Bool
  tleValid : Bool
  tracking : Bool

/-- The TLE handoff buffers `satelliteName[25]`, `tleLine1[70]`, `tleLine2[70]`. -/
structure TleBuffers where
  satelliteName : String
  tleLine1 : String
  tleLine2 : String
deriving DecidableEq

/-- The state touched by the Core-1 tracking loop: the shared structures, the
handoff flag `tleUpdatePending`, `satInitialized`, the record of the last
`sat.site`/`sat.init` call (`none` until the propagator has been initialized),
and the predictor statics `lastAz`/`lastEl`/`lastPredictionTime`. -/
structure TrackingState where
  tracker : TrackerState
  target : TargetPosition
  buffers : TleBuffers
  tleUpdatePending : Bool
  satInitialized : Bool
  satInitTle : Option TleBuffers
  lastAz : ℚ
  lastEl : ℚ
  lastPredictionTime : ℕ

/-- The GPS date validation at the top of the predictor:
`year < 2020 || year > 2100 || month < 1 || month > 12 || day < 1 || day > 31`
causes an early return. -/
def dateValid (t : TrackerState) : Bool :=
  !(t.gpsYear < 2020 || t.gpsYear > 2100 || t.gpsMonth < 1 || t.gpsMonth > 12 ||
    t.gpsDay < 1 || t.gpsDay > 31)

/-- `dt = (now - lastPredictionTime) / 1000.0`, elapsed seconds since the
previous predictor sample (`millis()` values as naturals). -/
def predDt (s : TrackingState) (nowMs : ℕ) : ℚ :=
  ((nowMs - s.lastPredictionTime : ℕ) : ℚ) / 1000

/-- The azimuth angular velocity fed into the extrapolation: 0 without a valid
previous sample (`lastPredictionTime > 0 && dt > 0.01`), otherwise the finite
difference, wraparound-corrected (`±360` if beyond `±180`) and then
`constrain`ed to `[-2, 2]` deg/s. -/
def azVelocityUsed (s : TrackingState) (nowMs : ℕ) (azNow : ℚ) : ℚ :=
  let dt := predDt s nowMs
  if 0 < s.lastPredictionTime ∧ dt > 1 / 100 then
    let v0 := (azNow - s.lastAz) / dt
    let v1 := if v0 > 180 then v0 - 360 else v0
    let v2 := if v1 < -180 then v1 + 360 else v1
    qconstrain v2 (-2) 2
  else 0

/-- The elevation angular velocity fed into the extrapolation: 0 without a
valid previous sample, otherwise the finite difference `constrain`ed to
`[-2, 2]` deg/s (no wraparound correction on elevation). -/
def elVelocityUsed (s : TrackingState) (nowMs : ℕ) (elNow : ℚ) : ℚ :=
  let dt := predDt s nowMs
  if 0 < s.lastPredictionTime ∧ dt > 1 / 100 then
    qconstrain ((elNow - s.lastEl) / dt) (-2) 2
  else 0

/-- The predictor body of `updateTracking` (everything after the TLE-handoff
block).  `azNow`/`elNow` are the instantaneous `sat.satAz`/`sat.satEl`
reported by the external propagator after `sat.findsat(jdNow)`; `nowMs` is
`millis()`.  Early return when the gate
`tracking && satInitialized && gpsValid` fails or the GPS date is invalid;
the `else if (tracking && !gpsValid)` branch drops tracking. -/
def predictorStep (s : TrackingState) (nowMs : ℕ) (azNow elNow : ℚ) : TrackingState :=
  if s.tracker.tracking && s.satInitialized && s.tracker.gpsValid then
    if dateValid s.tracker = false then s
    else
      let azVelocity := azVelocityUsed s nowMs azNow
      let elVelocity := elVelocityUsed s nowMs elNow
      let predictedAz := normalizeAz (azNow + azVelocity * PREDICTION_TIME_SEC)
      let predictedEl := elNow + elVelocity * PREDICTION_TIME_SEC
      let target1 : TargetPosition :=
        { elevation := predictedEl, azimuth := predictedAz, valid := true }
      let target2 := if elNow < 0 then { target1 with elevation := 0 } else target1
      { s with target := target2,
               lastAz := azNow, lastEl := elNow, lastPredictionTime := nowMs }
  else if s.tracker.tracking && !s.tracker.gpsValid then
    { s with tracker := { s.tracker with tracking := false } }
  else s

/-- One `updateTracking()` tick.  The TLE-handoff block runs first: on
`tleUpdatePending` it declines (clearing the flag, early return) when
`!trackerState.gpsValid`, and otherwise calls `sat.site`/`sat.init`, sets
`satInitialized`/`tleValid`/`tracking` and clears the flag before falling
through to the predictor.  The boolean of the result records whether this
tick called `sat.init` (the propagator initialization). -/
def updateTracking (s : TrackingState) (nowMs : ℕ) (azNow elNow : ℚ) :
    TrackingState × Bool :=
  if s.tleUpdatePending then
    if s.tracker.gpsValid = false then
      ({ s with tleUpdatePending := false }, false)
    else
      let s1 := { s with
        satInitialized := true,
        satInitTle := some s.buffers,
        tracker := { s.tracker with tleValid := true, tracking := true },
        tleUpdatePending := false }
      (predictorStep s1 nowMs azNow elNow, true)
  else
    (predictorStep s nowMs azNow elNow, false)

/-- `setTLE(name, line1, line2)` (serial_interface.cpp): `strncpy` the three
buffers (24 / 69 / 69 characters plus forced NUL), memory barrier, then set
`tleUpdatePending = true` and `trackerState.tleValid = true`. -/
def setTLE (s : TrackingState) (name line1 line2 : String) : TrackingState :=
  { s with
    buffers := { satelliteName := name.take 24,
                 tleLine1 := line1.take 69,
                 tleLine2 := line2.take 69 },
    tleUpdatePending := true,
    tracker := { s.tracker with tleValid := true } }

/-- `setManualPosition(az, el)` (serial_interface.cpp): disable tracking and
write the target position fields verbatim — no clamping here. -/
def setManualPosition (s : TrackingState) (az el : ℚ) : TrackingState :=
  { s with
    tracker := { s.tracker with tracking := false },
    target := { elevation := el, azimuth := az, valid := true } }

/-- Models the GPS collaborator acquiring a fix: it sets
`trackerState.gpsValid = true` (gps_module.cpp writes this field). -/
def gpsFixAcquired (s : TrackingState) : TrackingState :=
  { s with tracker := { s.tracker with gpsValid := true } }

/-! ## Touch-screen target adjustments (display_module.cpp, `TAG_EL_UP` /
`TAG_EL_DOWN` cases) -/

/-- `TAG_EL_UP`: `targetPos.elevation += 5.0;` then
`constrain(targetPos.elevation, MIN_ELEVATION, MAX_ELEVATION)`. -/
def touchElevationUp (t : TargetPosition) : TargetPosition :=
  { t with elevation := qconstrain (t.elevation + 5) MIN_ELEVATION MAX_ELEVATION }

/-- `TAG_EL_DOWN`: `targetPos.elevation -= 5.0;` then
`constrain(targetPos.elevation, MIN_ELEVATION, MAX_ELEVATION)`. -/
def touchElevationDown (t : TargetPosition) : TargetPosition :=
  { t with elevation := qconstrain (t.elevation - 5) MIN_ELEVATION MAX_ELEVATION }

/-- `driveMagnitudeOK d` states that the pair of PWM values `d` drives one
pin with a duty in `[MOTOR_MIN_PWM, 255]` and grounds the other, or grounds
both (the coast stop of the configured L298N driver). -/
def driveMagnitudeOK (d : PinDrive) : Prop :=
  (d.fwd = 0 ∧ d.rev = 0) ∨
  (MOTOR_MIN_PWM ≤ d.fwd ∧ d.fwd ≤ 255 ∧ d.rev = 0) ∨
  (d.fwd = 0 ∧ MOTOR_MIN_PWM ≤ d.rev ∧ d.rev ≤ 255)

/-! ## General lemmas about the helpers -/

theorem qconstrain_le_left (x lo hi : ℚ) (h : lo ≤ hi) : lo ≤ qconstrain x lo hi := by
  unfold qconstrain
  split_ifs <;> linarith

theorem qconstrain_le_right (x lo hi : ℚ) (h : lo ≤ hi) : qconstrain x lo hi ≤ hi := by
  unfold qconstrain
  split_ifs <;> linarith

theorem normUp_eq_of_nonneg (x : ℚ) (h : 0 ≤ x) : normUp x = x := by
  rw [normUp]
  simp [not_lt.mpr h]

theorem normDown_eq_of_lt (x : ℚ) (h : x < 360) : normDown x = x := by
  rw [normDown]
  simp [not_le.mpr h]

theorem normalizeAz_eq_of_range (x : ℚ) (h0 : 0 ≤ x) (h1 : x < 360) :
    normalizeAz x = x := by
  rw [normalizeAz, normUp_eq_of_nonneg x h0, normDown_eq_of_lt x h1]

theorem setMotorSpeed_estop (speed : ℤ) : setMotorSpeed true speed = stopCommand := by
  simp [setMotorSpeed, iconstrain]

theorem setMotorSpeed_zero : setMotorSpeed false 0 = stopCommand := by
  simp [setMotorSpeed, iconstrain]

theorem predictorStep_pending (s : TrackingState) (n : ℕ) (az el : ℚ) :
    (predictorStep s n az el).tleUpdatePending = s.tleUpdatePending := by
  unfold predictorStep
  split_ifs <;> rfl

theorem predictorStep_satInitTle (s : TrackingState) (n : ℕ) (az el : ℚ) :
    (predictorStep s n az el).satInitTle = s.satInitTle := by
  unfold predictorStep
  split_ifs <;> rfl

theorem predictorStep_tracker_of_gpsValid (s : TrackingState) (n : ℕ) (az el : ℚ)
    (hg : s.tracker.gpsValid = true) :
    (predictorStep s n az el).tracker = s.tracker := by
  unfold predictorStep
  split_ifs <;> first | rfl | simp_all

theorem updateTracking_clears_pending (s : TrackingState) (n : ℕ) (az el : ℚ) :
    (updateTracking s n az el).1.tleUpdatePending = false := by
  unfold updateTracking
  split_ifs with h1 h2
  · rfl
  · rw [predictorStep_pending]
  · rw [predictorStep_pending]
    simpa using h1

theorem updateTracking_no_init_of_not_pending (s : TrackingState) (n : ℕ)
    (az el : ℚ) (h : s.tleUpdatePending = false) :
    (updateTracking s n az el).2 = false := by
  simp [updateTracking, h]

/-! ## Claim theorems -/

/-- Claim C1: while the emergencyStop latch is true, every call to
`setMotorSpeed` applies the zero/stop command (brake or coast per
`MOTOR_BRAKE_MODE`) to the motor output pins regardless of the requested
speed, and every `updateMotorControl` tick entered with the latch set stops
both motors and performs no PID computation (both PID states unchanged). -/
theorem estop_forces_zero_command (speed : ℤ) (s : MotorIn)
    (h : s.emergencyStop = true) :
    setMotorSpeed true speed = stopCommand ∧
    (updateMotorControl s).driveE = stopCommand ∧
    (updateMotorControl s).driveA = stopCommand ∧
    (updateMotorControl s).pidE = s.pidE ∧
    (updateMotorControl s).pidA = s.pidA := by
  refine ⟨setMotorSpeed_estop speed, ?_, ?_, ?_, ?_⟩ <;>
    simp [updateMotorControl, h, setMotorSpeed_estop]

/-- Witness for C1 at speed 200 and a concrete latched state. -/
theorem estop_forces_zero_command_holds :
    setMotorSpeed true 200 = stopCommand ∧
    (updateMotorControl ⟨true, 10, 20, 45, 100, true, ⟨1, 2⟩, ⟨3, 4⟩⟩).driveE = stopCommand ∧
    (updateMotorControl ⟨true, 10, 20, 45, 100, true, ⟨1, 2⟩, ⟨3, 4⟩⟩).driveA = stopCommand ∧
    (updateMotorControl ⟨true, 10, 20, 45, 100, true, ⟨1, 2⟩, ⟨3, 4⟩⟩).pidE = ⟨1, 2⟩ ∧
    (updateMotorControl ⟨true, 10, 20, 45, 100, true, ⟨1, 2⟩, ⟨3, 4⟩⟩).pidA = ⟨3, 4⟩ :=
  estop_forces_zero_command 200 ⟨true, 10, 20, 45, 100, true, ⟨1, 2⟩, ⟨3, 4⟩⟩ rfl

/-- Counterexample to claim C2 as stated: at target azimuth 0° and measured
azimuth 180° (both in `[0, 360)`) the wrapped error is exactly −180°, which is
not in the half-open interval `(-180, 180]`. -/
theorem az_wrap_error_hits_neg_180 :
    (0 : ℚ) ≤ 0 ∧ (0 : ℚ) < 360 ∧ (0 : ℚ) ≤ 180 ∧ (180 : ℚ) < 360 ∧
    azWrappedError 0 180 = -180 ∧ ¬ (-180 < azWrappedError 0 180) := by
  norm_num [azWrappedError]

/-- Claim C2 (amended): for every target azimuth in `[0, 360)` and every
normalized measured azimuth in `[0, 360)`, the wrapped azimuth error used for
control lies in the closed interval `[-180, 180]` (the value −180 is
attained, so the interval is closed at −180, not open). -/
theorem az_wrap_error_in_closed_interval (t c : ℚ)
    (ht0 : 0 ≤ t) (ht1 : t < 360) (hc0 : 0 ≤ c) (hc1 : c < 360) :
    -180 ≤ azWrappedError t c ∧ azWrappedError t c ≤ 180 := by
  unfold azWrappedError
  dsimp only
  split_ifs <;> constructor <;> linarith

/-- Witness for the amended C2 at target 10°, measured 350°. -/
theorem az_wrap_error_in_closed_interval_holds :
    -180 ≤ azWrappedError 10 350 ∧ azWrappedError 10 350 ≤ 180 :=
  az_wrap_error_in_closed_interval 10 350 (by norm_num) (by norm_num)
    (by norm_num) (by norm_num)

/-- Claim C9: an `updateMotorControl` tick with the emergency stop clear and
the measured elevation outside `[MIN_ELEVATION − 5, MAX_ELEVATION + 5]` stops
both motors, clears `trackerState.tracking`, and skips all control math:
both PID states are left unchanged. -/
theorem overtravel_fault_stops_motors (s : MotorIn)
    (h1 : s.emergencyStop = false)
    (h2 : measuredElevation s < MIN_ELEVATION - 5 ∨
          measuredElevation s > MAX_ELEVATION + 5) :
    (updateMotorControl s).driveE = stopCommand ∧
    (updateMotorControl s).driveA = stopCommand ∧
    (updateMotorControl s).tracking = false ∧
    (updateMotorControl s).pidE = s.pidE ∧
    (updateMotorControl s).pidA = s.pidA := by
  refine ⟨?_, ?_, ?_, ?_, ?_⟩ <;>
    simp [updateMotorControl, h1, h2, setMotorSpeed_zero]

/-- Witness for C9: encoder count 80 gives measured elevation 96° > 95°. -/
theorem overtravel_fault_stops_motors_holds :
    (updateMotorControl ⟨false, 80, 0, 45, 10, true, ⟨1, 2⟩, ⟨3, 4⟩⟩).driveE = stopCommand ∧
    (updateMotorControl ⟨false, 80, 0, 45, 10, true, ⟨1, 2⟩, ⟨3, 4⟩⟩).driveA = stopCommand ∧
    (updateMotorControl ⟨false, 80, 0, 45, 10, true, ⟨1, 2⟩, ⟨3, 4⟩⟩).tracking = false ∧
    (updateMotorControl ⟨false, 80, 0, 45, 10, true, ⟨1, 2⟩, ⟨3, 4⟩⟩).pidE = ⟨1, 2⟩ ∧
    (updateMotorControl ⟨false, 80, 0, 45, 10, true, ⟨1, 2⟩, ⟨3, 4⟩⟩).pidA = ⟨3, 4⟩ :=
  overtravel_fault_stops_motors ⟨false, 80, 0, 45, 10, true, ⟨1, 2⟩, ⟨3, 4⟩⟩ rfl
    (Or.inr (by norm_num [measuredElevation, DEGREES_PER_PULSE, gearRatio,
      ENCODER_PPR, MAX_ELEVATION]))

/-- Claim C10: with the emergency stop clear, the drive magnitude applied by
`setMotorSpeed` is either exactly 0 (both pins grounded, coast stop of the
L298N) or lies in `[MOTOR_MIN_PWM, 255]`; no duty in the open interval
`(0, MOTOR_MIN_PWM)` ever reaches a PWM pin. -/
theorem min_pwm_gap (speed : ℤ) : driveMagnitudeOK (setMotorSpeed false speed) := by
  simp only [driveMagnitudeOK, setMotorSpeed, iconstrain, stopCommand,
    MOTOR_MIN_PWM, MOTOR_BRAKE_MODE, Bool.false_eq_true, if_false]
  split_ifs <;> simp_all <;> omega

/-! ## Concrete tracking states used by witnesses and counterexamples -/

/-- A tracker snapshot with a GPS fix, a valid 2024 date, and tracking on. -/
def trackerReady : TrackerState :=
  { latitude := 47, longitude := 8, altitude := 400,
    gpsYear := 2024, gpsMonth := 6, gpsDay := 1,
    gpsHour := 12, gpsMinute := 0, gpsSecond := 0,
    gpsValid := true, tleValid := true, tracking := true }

/-- The same tracker before any GPS fix, with tracking off. -/
def trackerNoFix : TrackerState :=
  { trackerReady with gpsValid := false, tleValid := false, tracking := false }

/-- A TLE buffer snapshot (contents are irrelevant to the control flow). -/
def issBuffers : TleBuffers :=
  { satelliteName := "ISS (ZARYA)", tleLine1 := "1 25544U", tleLine2 := "2 25544" }

/-- Idle tracking state: no handoff pending, no previous predictor sample. -/
def sIdle : TrackingState :=
  { tracker := trackerReady, target := ⟨0, 0, false⟩, buffers := issBuffers,
    tleUpdatePending := false, satInitialized := true, satInitTle := none,
    lastAz := 0, lastEl := 0, lastPredictionTime := 0 }

/-- Tracking state with a handoff pending while the GPS fix is absent. -/
def sNoGps : TrackingState :=
  { tracker := trackerNoFix, target := ⟨0, 0, false⟩, buffers := issBuffers,
    tleUpdatePending := true, satInitialized := false, satInitTle := none,
    lastAz := 0, lastEl := 0, lastPredictionTime := 0 }

/-- Predictor state with a previous sample at 1000 ms: `lastAz = 99.9°`,
`lastEl = 45°`, so a tick at 2000 ms seeing az 100° derives 0.1°/s. -/
def sPred : TrackingState :=
  { tracker := trackerReady, target := ⟨0, 0, false⟩, buffers := issBuffers,
    tleUpdatePending := false, satInitialized := true, satInitTle := none,
    lastAz := 999 / 10, lastEl := 45, lastPredictionTime := 1000 }

/-- Predictor state whose previous sample (el 87° at 1000 ms) makes a tick at
2000 ms seeing el 89° derive the full +2°/s elevation velocity. -/
def sFastEl : TrackingState :=
  { sPred with lastAz := 100, lastEl := 87 }

/-- Predictor state with the previous sample just below the horizon. -/
def sBelow : TrackingState :=
  { sPred with lastAz := 100, lastEl := -2 }

/-- Counterexample to claim C3 as stated: a reachable predictor tick
(previous sample el 87° at 1000 ms, instantaneous el 89° at 2000 ms, so the
derived velocity is the maximal +2°/s) extrapolates 2 s ahead and stores
`targetPos.elevation = 93°`, outside `[MIN_ELEVATION, MAX_ELEVATION]`. -/
theorem predictor_writes_elevation_above_max :
    (updateTracking sFastEl 2000 100 89).1.target.elevation = 93 ∧
    ¬ ((updateTracking sFastEl 2000 100 89).1.target.elevation ≤ MAX_ELEVATION) := by
  constructor <;>
    norm_num [updateTracking, predictorStep, dateValid, azVelocityUsed,
      elVelocityUsed, predDt, qconstrain, sFastEl, sPred, trackerReady,
      PREDICTION_TIME_SEC, MAX_ELEVATION]

/-- Claim C3 (amended): the touch-screen elevation adjustments always leave
`targetPos.elevation` inside `[MIN_ELEVATION, MAX_ELEVATION]`, and the motor
control tick clamps the stored target elevation into that range before
computing the elevation error; but the predictor tick `updateTracking` and
`setManualPosition` write the elevation unclamped, so the invariant does not
hold after every `TargetPosition` write (see the counterexample). -/
theorem elevation_clamped_at_touch_and_drive (t : TargetPosition) (s : MotorIn) :
    (MIN_ELEVATION ≤ (touchElevationUp t).elevation ∧
     (touchElevationUp t).elevation ≤ MAX_ELEVATION) ∧
    (MIN_ELEVATION ≤ (touchElevationDown t).elevation ∧
     (touchElevationDown t).elevation ≤ MAX_ELEVATION) ∧
    (MIN_ELEVATION ≤ motorTargetEl s ∧ motorTargetEl s ≤ MAX_ELEVATION) := by
  have h : MIN_ELEVATION ≤ MAX_ELEVATION := by norm_num [MIN_ELEVATION, MAX_ELEVATION]
  exact ⟨⟨qconstrain_le_left _ _ _ h, qconstrain_le_right _ _ _ h⟩,
         ⟨qconstrain_le_left _ _ _ h, qconstrain_le_right _ _ _ h⟩,
         ⟨qconstrain_le_left _ _ _ h, qconstrain_le_right _ _ _ h⟩⟩

/-- Claim C4: the propagator initialization happens only in a tick that
observes `tleUpdatePending` true; every tick returns with the flag false;
hence a flag set once and never re-set cannot trigger a second
initialization (the immediately following tick never initializes). -/
theorem tle_handoff_at_most_one_init (s : TrackingState) (n n2 : ℕ)
    (az el az2 el2 : ℚ) :
    (s.tleUpdatePending = false → (updateTracking s n az el).2 = false) ∧
    (updateTracking s n az el).1.tleUpdatePending = false ∧
    (updateTracking (updateTracking s n az el).1 n2 az2 el2).2 = false :=
  ⟨fun h => updateTracking_no_init_of_not_pending s n az el h,
   updateTracking_clears_pending s n az el,
   updateTracking_no_init_of_not_pending _ n2 az2 el2
     (updateTracking_clears_pending s n az el)⟩

/-- Witness for C4 at a concrete idle state. -/
theorem tle_handoff_at_most_one_init_holds :
    (updateTracking sIdle 1 2 3).2 = false ∧
    (updateTracking sIdle 1 2 3).1.tleUpdatePending = false ∧
    (updateTracking (updateTracking sIdle 1 2 3).1 4 5 6).2 = false :=
  ⟨(tle_handoff_at_most_one_init sIdle 1 4 2 3 5 6).1 rfl,
   (tle_handoff_at_most_one_init sIdle 1 4 2 3 5 6).2.1,
   (tle_handoff_at_most_one_init sIdle 1 4 2 3 5 6).2.2⟩

/-- Claim C5: a tick observing `tleUpdatePending` true while `gpsValid` is
false clears the flag without initializing the propagator and without
enabling tracking (tracking stays false if it was false); resubmitting a TLE
via `setTLE` after the GPS fix arrives makes the next tick initialize the
propagator (with exactly the resubmitted buffers) and set `tleValid` and
`tracking`. -/
theorem gps_invalid_drop_and_retry (s : TrackingState) (n n2 : ℕ)
    (az el az2 el2 : ℚ) (name line1 line2 : String)
    (hp : s.tleUpdatePending = true) (hg : s.tracker.gpsValid = false) :
    (updateTracking s n az el).2 = false ∧
    (updateTracking s n az el).1.tleUpdatePending = false ∧
    (s.tracker.tracking = false →
      (updateTracking s n az el).1.tracker.tracking = false) ∧
    (updateTracking (gpsFixAcquired
        (setTLE (updateTracking s n az el).1 name line1 line2)) n2 az2 el2).2 = true ∧
    (updateTracking (gpsFixAcquired
        (setTLE (updateTracking s n az el).1 name line1 line2)) n2 az2 el2).1.tracker.tleValid = true ∧
    (updateTracking (gpsFixAcquired
        (setTLE (updateTracking s n az el).1 name line1 line2)) n2 az2 el2).1.tracker.tracking = true ∧
    (updateTracking (gpsFixAcquired
        (setTLE (updateTracking s n az el).1 name line1 line2)) n2 az2 el2).1.satInitTle =
      some ⟨name.take 24, line1.take 69, line2.take 69⟩ := by
  have hdecl : updateTracking s n az el = ({ s with tleUpdatePending := false }, false) := by
    simp [updateTracking, hp, hg]
  rw [hdecl]
  refine ⟨rfl, rfl, fun h => h, ?_, ?_, ?_, ?_⟩ <;>
    simp [updateTracking, gpsFixAcquired, setTLE,
      predictorStep_tracker_of_gpsValid, predictorStep_satInitTle]

/-- Witness for C5 at a concrete no-fix state and a concrete resubmission. -/
theorem gps_invalid_drop_and_retry_holds :
    (updateTracking sNoGps 1 10 20).2 = false ∧
    (updateTracking sNoGps 1 10 20).1.tleUpdatePending = false ∧
    (sNoGps.tracker.tracking = false →
      (updateTracking sNoGps 1 10 20).1.tracker.tracking = false) ∧
    (updateTracking (gpsFixAcquired
        (setTLE (updateTracking sNoGps 1 10 20).1 "ISS (ZARYA)" "1 25544U" "2 25544")) 2 10 20).2 = true ∧
    (updateTracking (gpsFixAcquired
        (setTLE (updateTracking sNoGps 1 10 20).1 "ISS (ZARYA)" "1 25544U" "2 25544")) 2 10 20).1.tracker.tleValid = true ∧
    (updateTracking (gpsFixAcquired
        (setTLE (updateTracking sNoGps 1 10 20).1 "ISS (ZARYA)" "1 25544U" "2 25544")) 2 10 20).1.tracker.tracking = true ∧
    (updateTracking (gpsFixAcquired
        (setTLE (updateTracking sNoGps 1 10 20).1 "ISS (ZARYA)" "1 25544U" "2 25544")) 2 10 20).1.satInitTle =
      some ⟨String.take "ISS (ZARYA)" 24, String.take "1 25544U" 69, String.take "2 25544" 69⟩ := by
  have h := gps_invalid_drop_and_retry sNoGps 1 2 10 20 10 20
    "ISS (ZARYA)" "1 25544U" "2 25544" rfl rfl
  exact ⟨h.1, h.2.1, h.2.2.1, h.2.2.2.1, h.2.2.2.2.1, h.2.2.2.2.2.1, h.2.2.2.2.2.2⟩

/-- Claim C6: on a predictor tick with a valid previous sample
(`lastPredictionTime > 0` and elapsed `dt > 0.01 s`), the angular velocities
fed into the extrapolation lie in `[-2, 2]` deg/s however large the raw
finite difference is; without a valid previous sample both are 0. -/
theorem derived_velocity_clamped (s : TrackingState) (n : ℕ) (azNow elNow : ℚ) :
    (0 < s.lastPredictionTime → predDt s n > 1 / 100 →
      -2 ≤ azVelocityUsed s n azNow ∧ azVelocityUsed s n azNow ≤ 2 ∧
      -2 ≤ elVelocityUsed s n elNow ∧ elVelocityUsed s n elNow ≤ 2) ∧
    (s.lastPredictionTime = 0 →
      azVelocityUsed s n azNow = 0 ∧ elVelocityUsed s n elNow = 0) := by
  constructor
  · intro h1 h2
    unfold azVelocityUsed elVelocityUsed
    rw [if_pos ⟨h1, h2⟩, if_pos ⟨h1, h2⟩]
    exact ⟨qconstrain_le_left _ _ _ (by norm_num),
           qconstrain_le_right _ _ _ (by norm_num),
           qconstrain_le_left _ _ _ (by norm_num),
           qconstrain_le_right _ _ _ (by norm_num)⟩
  · intro h0
    unfold azVelocityUsed elVelocityUsed
    rw [if_neg, if_neg] <;> simp [h0]

/-- Witness for C6: a tick 1 s after a previous sample, and a tick with no
previous sample. -/
theorem derived_velocity_clamped_holds :
    (-2 ≤ azVelocityUsed sPred 2000 5 ∧ azVelocityUsed sPred 2000 5 ≤ 2 ∧
     -2 ≤ elVelocityUsed sPred 2000 7 ∧ elVelocityUsed sPred 2000 7 ≤ 2) ∧
    (azVelocityUsed sIdle 2000 5 = 0 ∧ elVelocityUsed sIdle 2000 7 = 0) :=
  ⟨(derived_velocity_clamped sPred 2000 5 7).1 (by norm_num [sPred])
      (by norm_num [predDt, sPred]),
   (derived_velocity_clamped sIdle 2000 5 7).2 rfl⟩

/-- Claim C7: a predictor tick with tracking enabled, GPS valid, a valid
date, the propagator reporting az 100° / el 45°, and derived velocities
0.1°/s azimuth and 0°/s elevation writes Target Position
azimuth = 100.2°, elevation = 45°, valid = true (2-second lookahead). -/
theorem prediction_scenario_lookahead (s : TrackingState) (n : ℕ)
    (hp : s.tleUpdatePending = false) (ht : s.tracker.tracking = true)
    (hi : s.satInitialized = true) (hg : s.tracker.gpsValid = true)
    (hd : dateValid s.tracker = true)
    (hav : azVelocityUsed s n 100 = 1 / 10) (hev : elVelocityUsed s n 45 = 0) :
    (updateTracking s n 100 45).1.target.azimuth = 501 / 5 ∧
    (updateTracking s n 100 45).1.target.elevation = 45 ∧
    (updateTracking s n 100 45).1.target.valid = true := by
  have hnorm : normalizeAz (501 / 5) = 501 / 5 :=
    normalizeAz_eq_of_range _ (by norm_num) (by norm_num)
  refine ⟨?_, ?_, ?_⟩ <;>
    norm_num [updateTracking, predictorStep, hp, ht, hi, hg, hd, hav, hev,
      hnorm, PREDICTION_TIME_SEC]

/-- Witness for C7 at the concrete predictor state `sPred`. -/
theorem prediction_scenario_lookahead_holds :
    (updateTracking sPred 2000 100 45).1.target.azimuth = 501 / 5 ∧
    (updateTracking sPred 2000 100 45).1.target.elevation = 45 ∧
    (updateTracking sPred 2000 100 45).1.target.valid = true :=
  prediction_scenario_lookahead sPred 2000 rfl rfl rfl rfl rfl
    (by norm_num [azVelocityUsed, predDt, sPred, qconstrain])
    (by norm_num [elVelocityUsed, predDt, sPred, qconstrain])

/-- Claim C8: a predictor tick whose instantaneous elevation is negative
while tracking forces the stored target elevation to 0°, still writes the
extrapolated (wrapped) azimuth, marks the target valid, and leaves
`trackerState.tracking` unchanged. -/
theorem below_horizon_stow (s : TrackingState) (n : ℕ) (azNow elNow : ℚ)
    (hp : s.tleUpdatePending = false) (ht : s.tracker.tracking = true)
    (hi : s.satInitialized = true) (hg : s.tracker.gpsValid = true)
    (hd : dateValid s.tracker = true) (hel : elNow < 0) :
    (updateTracking s n azNow elNow).1.target.elevation = 0 ∧
    (updateTracking s n azNow elNow).1.target.azimuth =
      normalizeAz (azNow + azVelocityUsed s n azNow * PREDICTION_TIME_SEC) ∧
    (updateTracking s n azNow elNow).1.target.valid = true ∧
    (updateTracking s n azNow elNow).1.tracker.tracking = s.tracker.tracking := by
  refine ⟨?_, ?_, ?_, ?_⟩ <;>
    simp [updateTracking, predictorStep, hp, ht, hi, hg, hd, hel]

/-- Witness for C8 with the propagator reporting el = −3° at az 100°. -/
theorem below_horizon_stow_holds :
    (updateTracking sBelow 2000 100 (-3)).1.target.elevation = 0 ∧
    (updateTracking sBelow 2000 100 (-3)).1.target.azimuth =
      normalizeAz (100 + azVelocityUsed sBelow 2000 100 * PREDICTION_TIME_SEC) ∧
    (updateTracking sBelow 2000 100 (-3)).1.target.valid = true ∧
    (updateTracking sBelow 2000 100 (-3)).1.tracker.tracking = sBelow.tracker.tracking :=
  below_horizon_stow sBelow 2000 100 (-3) rfl rfl rfl rfl rfl (by norm_num)

end SatTracker
